import Mathlib

/-!
Shallow embedding of the MONClient map/tileset core
(`TmxLoader.cpp`, `TileResolver.cpp`, `TileSet.cpp`, `RenderQueue.h`,
`main.cpp` depth sort) and proofs about it.

Modelling conventions:
* C++ `int` is `Int`; `uint32_t` values are `Nat` with explicit `% 2^32`
  where conversions matter; the C++ cast `static_cast<int>(g)` of a
  `uint32_t` is `toInt32`.
* C++ `/` and `%` on `int` truncate toward zero: `Int.tdiv` / `Int.tmod`.
* `float` quantities (pixel positions, offsets, UVs) are modelled as `ℚ`;
  the code only adds, subtracts and compares them in the claims at issue.
  Elapsed animation time is used by the code only through
  `static_cast<int>(std::floor(t))`, so it is modelled as that integer.
* `std::unordered_map` is an association list queried with `List.lookup`
  (keys are unique in the loader, so first match agrees with the map).
* `std::stable_sort` is `List.mergeSort`, which is stable with the same
  comparator contract.
-/

/-- Two's-complement reinterpretation of a `uint32_t` value as C++ `int`,
as performed by `static_cast<int>(gid)` in `TileResolver.cpp`. -/
def toInt32 (g : Nat) : Int :=
  let m : Nat := g % 2 ^ 32
  if m < 2 ^ 31 then (m : Int) else (m : Int) - 2 ^ 32

/-- `TMX_GID_MASK` applied to an `int` CSV cell: the value is converted to
`uint32_t` (mod `2^32`) and the three high flip-flag bits are cleared,
keeping the low 29 bits (`TmxLoader.cpp`). -/
def maskGid (v : Int) : Nat :=
  ((v % (2 ^ 32 : Int)).toNat) % 2 ^ 29

/-- `TMX_GID_MASK` applied to an already-unsigned value (the `strtoul`
result for an object's `gid` attribute). -/
def maskGidNat (v : Nat) : Nat :=
  (v % 2 ^ 32) % 2 ^ 29

/-- Per-tile boolean property flags `{blocking, water, slow}`
(`TilePropertyFlags` in `TmxLoader.h`). -/
structure TilePropertyFlags where
  blocking : Bool := false
  water : Bool := false
  slow : Bool := false
deriving DecidableEq, Repr

/-- One animation frame (`AnimationFrame` in `TmxLoader.h`). -/
structure AnimationFrame where
  tileId : Int := 0
  durationMs : Int := 0
deriving DecidableEq, Repr

/-- A per-tile animation (`TileAnimation` in `TmxLoader.h`). -/
structure TileAnimation where
  frames : List AnimationFrame := []
  totalDurationMs : Int := 0
deriving DecidableEq, Repr

/-- An individual image of an image-collection tileset (`TileImageDef`). -/
structure TileImageDef where
  path : String := ""
  w : Int := 0
  h : Int := 0
deriving DecidableEq, Repr

/-- A tileset definition (`TilesetDef` in `TmxLoader.h`). -/
structure TilesetDef where
  firstGid : Int := 1
  tileCount : Int := 0
  columns : Int := 0
  tileW : Int := 0
  tileH : Int := 0
  imagePath : String := ""
  imageW : Int := 0
  imageH : Int := 0
  isImageCollection : Bool := false
  tileImages : List (Int × TileImageDef) := []
  animations : List (Int × TileAnimation) := []
  tileFlags : List (Int × TilePropertyFlags) := []
deriving DecidableEq, Repr

/-- The runtime `TileSet` class (`TileSet.cpp`): atlas and tile pixel sizes
plus the animation table installed by `SetAnimations`. -/
structure TileSet where
  atlasW : Int := 0
  atlasH : Int := 0
  tileW : Int := 0
  tileH : Int := 0
  animations : List (Int × TileAnimation) := []
deriving DecidableEq, Repr

/-- `mCols` computed in the `TileSet` constructor. -/
def TileSet.cols (ts : TileSet) : Int :=
  if ts.tileW > 0 then ts.atlasW.tdiv ts.tileW else 0

/-- `mRows` computed in the `TileSet` constructor. -/
def TileSet.rows (ts : TileSet) : Int :=
  if ts.tileH > 0 then ts.atlasH.tdiv ts.tileH else 0

/-- The frame-scan loop of `TileSet::ResolveTileId`: accumulate durations
and return the first frame whose span contains `timeInCycle`. -/
def FindFrame : List AnimationFrame → Int → Int → Option Int
  | [], _, _ => none
  | f :: rest, timeInCycle, accumulated =>
    let acc := accumulated + f.durationMs
    if timeInCycle < acc then some f.tileId else FindFrame rest timeInCycle acc

/-- `TileSet::ResolveTileId`: substitute an animated tile's current frame.
`animationTimeMs` is the integer `static_cast<int>(std::floor(t))`. -/
def TileSet.ResolveTileId (ts : TileSet) (tileId : Int) (animationTimeMs : Int) : Int :=
  match ts.animations.lookup tileId with
  | none => tileId
  | some anim =>
    if anim.frames.isEmpty ∨ anim.totalDurationMs ≤ 0 then tileId
    else
      let timeInCycle := animationTimeMs.tmod anim.totalDurationMs
      match FindFrame anim.frames timeInCycle 0 with
      | some tid => tid
      | none =>
        match anim.frames.getLast? with
        | some f => f.tileId
        | none => tileId

/-- `TileSet::GetUV`: UV rectangle of a uniform-grid tile, with the vertical
axis inverted relative to the authored row order. -/
def TileSet.GetUV (ts : TileSet) (tileId : Int) : (ℚ × ℚ) × (ℚ × ℚ) :=
  if ts.cols ≤ 0 ∨ ts.rows ≤ 0 ∨ ts.atlasW ≤ 0 ∨ ts.atlasH ≤ 0 then
    ((0, 0), (1, 1))
  else
    let col := tileId.tmod ts.cols
    let rowFromTop := tileId.tdiv ts.cols
    let x0 := col * ts.tileW
    let y0FromTop := rowFromTop * ts.tileH
    let u0 : ℚ := (x0 : ℚ) / (ts.atlasW : ℚ)
    let u1 : ℚ := ((x0 + ts.tileW : Int) : ℚ) / (ts.atlasW : ℚ)
    let v1 : ℚ := 1 - ((y0FromTop : ℚ) / (ts.atlasH : ℚ))
    let v0 : ℚ := 1 - (((y0FromTop + ts.tileH : Int) : ℚ) / (ts.atlasH : ℚ))
    ((u0, v0), (u1, v1))

/-- One entry of the resolver's tileset list (`TilesetRuntime`). -/
structure TilesetRuntime where
  tdef : TilesetDef := {}
  tileset : TileSet := {}
  textureId : Nat := 0
  tileTextures : List (Int × Nat) := []
deriving DecidableEq, Repr

/-- The result of a resolve call (`ResolvedTile`). -/
structure ResolvedTile where
  textureId : Nat := 0
  uvMin : ℚ × ℚ := (0, 0)
  uvMax : ℚ × ℚ := (1, 1)
  sizePx : ℚ × ℚ := (0, 0)
  isFullTexture : Bool := false
  tilesetIndex : Int := -1
  localId : Int := 0
deriving DecidableEq, Repr

/-- The loop body of `TileResolver::FindTilesetIndex`, threading the
`(bestIndex, bestFirstGid)` accumulator through the list; `i` is the index
of the current element. -/
def FindTilesetIndexAux : List TilesetRuntime → Nat → Int → Int × Int → Int × Int
  | [], _, _, acc => acc
  | r :: rest, i, g, acc =>
    if r.tdef.firstGid ≤ g ∧ r.tdef.firstGid > acc.2 then
      FindTilesetIndexAux rest (i + 1) g (Int.ofNat i, r.tdef.firstGid)
    else
      FindTilesetIndexAux rest (i + 1) g acc

/-- `TileResolver::FindTilesetIndex`: index of the tileset with the greatest
`firstGid` not exceeding `gid`, or `-1`. -/
def FindTilesetIndex (tilesets : List TilesetRuntime) (gid : Nat) : Int :=
  (FindTilesetIndexAux tilesets 0 (toInt32 gid) (-1, -1)).1

/-- `TileResolver::Resolve`: reject gid 0, select the owning tileset, bound
check the local id, substitute animation, then resolve texture and UVs by
tileset mode.  `none` models returning `false`. -/
def Resolve (tilesets : List TilesetRuntime) (gid : Nat) (animationTimeMs : Int) :
    Option ResolvedTile :=
  if gid = 0 then none
  else
    let tilesetIndex := FindTilesetIndex tilesets gid
    if tilesetIndex < 0 then none
    else
      match tilesets[tilesetIndex.toNat]? with
      | none => none
      | some runtime =>
        let d := runtime.tdef
        let localId := toInt32 gid - d.firstGid
        if localId < 0 then none
        else if d.tileCount > 0 ∧ localId ≥ d.tileCount then none
        else
          let resolvedId := runtime.tileset.ResolveTileId localId animationTimeMs
          if d.isImageCollection then
            match d.tileImages.lookup resolvedId with
            | none => none
            | some img =>
              match runtime.tileTextures.lookup resolvedId with
              | none => none
              | some tex =>
                some { textureId := tex
                       uvMin := (0, 0)
                       uvMax := (1, 1)
                       sizePx := ((img.w : ℚ), (img.h : ℚ))
                       isFullTexture := true
                       tilesetIndex := tilesetIndex
                       localId := resolvedId }
          else
            some { textureId := runtime.textureId
                   uvMin := (runtime.tileset.GetUV resolvedId).1
                   uvMax := (runtime.tileset.GetUV resolvedId).2
                   sizePx := ((d.tileW : ℚ), (d.tileH : ℚ))
                   isFullTexture := false
                   tilesetIndex := tilesetIndex
                   localId := resolvedId }

/-- One draw call's data (`RenderCmd` in `RenderQueue.h`); float fields are
modelled as `ℚ`. -/
structure RenderCmd where
  texture : Nat := 0
  posPx : ℚ × ℚ := (0, 0)
  sizePx : ℚ × ℚ := (0, 0)
  uvMin : ℚ × ℚ := (0, 0)
  uvMax : ℚ × ℚ := (1, 1)
  depthKey : ℚ := 0
deriving DecidableEq, Repr

/-- `RenderQueue::SortByDepthStable`: `std::stable_sort` with comparator
`a.depthKey < b.depthKey`, modelled as a stable merge sort whose `le` is the
negation of the reversed comparator. -/
def SortByDepthStable (cmds : List RenderCmd) : List RenderCmd :=
  cmds.mergeSort (fun a b => !decide (b.depthKey < a.depthKey))

/-- One `<frame>` element of a tile animation in `LoadTilesetFromElement`:
`tileid` defaults to the owning tile's id, `duration` defaults to 0, and a
non-positive duration is coerced to 100 ms. -/
def MakeAnimationFrame (tileId : Int) (frameTileIdAttr : Option Int)
    (durationAttr : Option Int) : AnimationFrame :=
  let durationMs := durationAttr.getD 0
  { tileId := frameTileIdAttr.getD tileId
    durationMs := if durationMs ≤ 0 then 100 else durationMs }

/-- The animation-construction loop of `LoadTilesetFromElement`, as a
function of the `<frame>` elements' `(tileid, duration)` attributes: frames
are accumulated with their coerced durations summed into
`totalDurationMs`, and the animation is stored only when it has frames and
a positive total duration. -/
def BuildTileAnimation (tileId : Int) (frameAttrs : List (Option Int × Option Int)) :
    Option TileAnimation :=
  let fs := frameAttrs.map (fun p => MakeAnimationFrame tileId p.1 p.2)
  let anim : TileAnimation := { frames := fs
                                totalDurationMs := (fs.map (·.durationMs)).sum }
  if ¬fs.isEmpty ∧ anim.totalDurationMs > 0 then some anim else none

/-- The loop body of `FindTilesetForGid` (`TmxLoader.cpp`), threading the
`(best, bestFirstGid)` accumulator. -/
def FindTilesetForGidAux : List TilesetDef → Int → Option TilesetDef × Int →
    Option TilesetDef × Int
  | [], _, acc => acc
  | d :: rest, g, acc =>
    if d.firstGid ≤ g ∧ d.firstGid > acc.2 then
      FindTilesetForGidAux rest g (some d, d.firstGid)
    else
      FindTilesetForGidAux rest g acc

/-- `FindTilesetForGid`: the tileset definition with the greatest
`firstGid` not exceeding `gid`, used by the collision aggregation. -/
def FindTilesetForGid (tilesets : List TilesetDef) (gid : Nat) : Option TilesetDef :=
  (FindTilesetForGidAux tilesets (toInt32 gid) (none, -1)).1

/-- `AccumulateTileFlags` in `LoadTmxMap`: OR one cell's tileset-tile flags
into the accumulated flags; gid 0 and unresolved gids contribute nothing. -/
def AccumulateTileFlags (tilesets : List TilesetDef) (flags : TilePropertyFlags)
    (gidValue : Nat) : TilePropertyFlags :=
  if gidValue = 0 then flags
  else
    match FindTilesetForGid tilesets gidValue with
    | none => flags
    | some d =>
      let localId := toInt32 gidValue - d.firstGid
      match d.tileFlags.lookup localId with
      | none => flags
      | some f =>
        { blocking := flags.blocking || f.blocking
          water := flags.water || f.water
          slow := flags.slow || f.slow }

/-- The per-cell flag accumulation of `LoadTmxMap`'s final loop: each of the
three role layers contributes its occupying tile's flags, but only when the
layer has exactly `expectedCount` cells. -/
def CellFlags (tilesets : List TilesetDef) (expectedCount : Nat)
    (ground walls overhead : List Nat) (i : Nat) : TilePropertyFlags :=
  let f0 : TilePropertyFlags := {}
  let f1 := if ground.length = expectedCount then
    AccumulateTileFlags tilesets f0 (ground.getD i 0) else f0
  let f2 := if walls.length = expectedCount then
    AccumulateTileFlags tilesets f1 (walls.getD i 0) else f1
  let f3 := if overhead.length = expectedCount then
    AccumulateTileFlags tilesets f2 (overhead.getD i 0) else f2
  f3

/-- The collision branch of `ParseLayer`: boolean-ize masked gids into the
`collisionTiles` byte array. -/
def CollisionBytes (rawGids : List Int) : List Nat :=
  rawGids.map (fun v => if maskGid v = 0 then 0 else 1)

/-- The collision aggregation at the end of `LoadTmxMap` (lines 586-624),
per cell: start from the explicit collision layer when one was parsed
(otherwise all-clear) and force a cell to 1 when its accumulated `blocking`
flag is set. -/
def AggregateCollision (tilesets : List TilesetDef) (expectedCount : Nat)
    (hasCollisionLayer : Bool) (collisionTiles : List Nat)
    (ground walls overhead : List Nat) : List Nat :=
  (List.range expectedCount).map (fun i =>
    let base := if hasCollisionLayer then collisionTiles.getD i 0 else 0
    if (CellFlags tilesets expectedCount ground walls overhead i).blocking then 1 else base)

/-- A generic map object (`MapObject` in `TmxLoader.h`); the property
`unordered_map` is an association list. -/
structure MapObject where
  id : Int := 0
  name : String := ""
  type : String := ""
  positionPx : ℚ × ℚ := (0, 0)
  sizePx : ℚ × ℚ := (0, 0)
  properties : List (String × String) := []
deriving DecidableEq, Repr

/-- A door trigger (`DoorDef` in `MapObjects.h`). -/
structure DoorDef where
  posPx : ℚ × ℚ := (0, 0)
  sizePx : ℚ × ℚ := (0, 0)
  targetMap : String := ""
  targetSpawn : String := ""
deriving DecidableEq, Repr

/-- A named spawn point (`SpawnDef` in `MapObjects.h`). -/
structure SpawnDef where
  name : String := ""
  posPx : ℚ × ℚ := (0, 0)
deriving DecidableEq, Repr

/-- A tile-anchored object instance (`MapObjectInstance`). -/
structure MapObjectInstance where
  tileIndex : Nat := 0
  worldPos : ℚ × ℚ := (0, 0)
  size : ℚ × ℚ := (0, 0)
deriving DecidableEq, Repr

/-- The typed map model (`MapData` in `TmxLoader.h`, current revision). -/
structure MapData where
  width : Int := 0
  height : Int := 0
  tileW : Int := 0
  tileH : Int := 0
  tilesets : List TilesetDef := []
  groundGids : List Nat := []
  wallsGids : List Nat := []
  overheadGids : List Nat := []
  collision : List Nat := []
  tileFlags : List TilePropertyFlags := []
  objects : List MapObject := []
  doors : List DoorDef := []
  spawns : List SpawnDef := []
  objectInstances : List MapObjectInstance := []
deriving DecidableEq, Repr

/-- The loader's output (`LoadedMap`). -/
structure LoadedMap where
  mapData : MapData := {}
deriving DecidableEq, Repr

/-- `GetStringProp`: first property with the given name, or `""`. -/
def GetStringProp (props : List (String × String)) (key : String) : String :=
  (props.lookup key).getD ""

/-- The `<data>` child of a layer element: its `encoding` attribute and the
integers decoded from its CSV text by `ParseCsvTiles` / `std::stoi`. -/
structure LayerData where
  encoding : Option String := none
  cells : List Int := []

/-- An `<object>` element's attributes as consumed by `ParseObjectGroup`;
`none` models a missing attribute.  `properties` is the parsed
`<properties>` child (empty when absent). -/
structure TmxObject where
  id : Option Int := none
  name : Option String := none
  type : Option String := none
  x : Option ℚ := none
  y : Option ℚ := none
  width : Option ℚ := none
  height : Option ℚ := none
  gid : Option Nat := none
  properties : List (String × String) := []

/-- A child node of the `<map>` element as walked by `ParseNode`: layers,
object groups and nested groups with their `offsetx`/`offsety` attributes;
`other` stands for any other tag (skipped). -/
inductive TmxNode where
  | layer (name : Option String) (ldata : Option LayerData)
  | objectgroup (offsetx offsety : Option ℚ) (objects : List TmxObject)
  | group (offsetx offsety : Option ℚ) (children : List TmxNode)
  | other

/-- The mutable state threaded through `LoadTmxMap`'s layer and object
parsing: the model under construction, the local `collisionTiles` vector,
the `hasCollisionLayer` flag, and the `std::cerr` messages. -/
structure LoadState where
  mapData : MapData := {}
  collisionTiles : List Nat := []
  hasCollisionLayer : Bool := false
  logs : List String := []
deriving DecidableEq, Repr

/-- The `ParseLayer` lambda in `LoadTmxMap`: reject a layer with missing
data, non-CSV encoding, or a cell count different from `expectedCount`
(logging and leaving the state unchanged); boolean-ize a collision layer;
route other layers to the matching role slot by lower-cased name. -/
def ParseLayer (expectedCount : Int) (st : LoadState) (name : Option String)
    (ldata : Option LayerData) : LoadState :=
  let layerName := name.getD ""
  match ldata with
  | none => { st with logs := st.logs ++ ["Layer missing data"] }
  | some ld =>
    if ld.encoding ≠ some "csv" then
      { st with logs := st.logs ++ ["Layer is not CSV encoded"] }
    else
      let rawGids := ld.cells
      if (rawGids.length : Int) ≠ expectedCount then
        { st with logs := st.logs ++ ["Layer size mismatch"] }
      else
        let lowerName := layerName.toLower
        if lowerName = "collision" then
          { st with hasCollisionLayer := true, collisionTiles := CollisionBytes rawGids }
        else
          let tiles := rawGids.map maskGid
          if lowerName = "ground" then
            { st with mapData := { st.mapData with groundGids := tiles } }
          else if lowerName = "walls" then
            { st with mapData := { st.mapData with wallsGids := tiles } }
          else if lowerName = "overhead" then
            { st with mapData := { st.mapData with overheadGids := tiles } }
          else st

/-- The `ParseObjectGroup` lambda in `LoadTmxMap`: apply the accumulated
group offset to every object, store tile objects (masked gid nonzero) as
object instances, and classify the rest as Door / Spawn / generic. -/
def ParseObjectGroup (st : LoadState) (groupOffsetPx : ℚ × ℚ)
    (objects : List TmxObject) : LoadState :=
  objects.foldl (fun st object =>
    let x := object.x.getD 0 + groupOffsetPx.1
    let y := object.y.getD 0 + groupOffsetPx.2
    let w := object.width.getD 0
    let h := object.height.getD 0
    let rawGid := object.gid.getD 0
    let gid := maskGidNat rawGid
    if gid ≠ 0 then
      let inst : MapObjectInstance :=
        { tileIndex := gid
          worldPos := (x, y)
          size := if w > 0 ∧ h > 0 then (w, h)
            else ((st.mapData.tileW : ℚ), (st.mapData.tileH : ℚ)) }
      { st with mapData :=
        { st.mapData with objectInstances := st.mapData.objectInstances ++ [inst] } }
    else
      let typeName := object.type.getD ""
      if typeName ≠ "" ∧ typeName = "Door" then
        let door : DoorDef :=
          { posPx := (x, y)
            sizePx := (w, h)
            targetMap := GetStringProp object.properties "targetMap"
            targetSpawn := GetStringProp object.properties "targetSpawn" }
        { st with mapData := { st.mapData with doors := st.mapData.doors ++ [door] } }
      else if typeName ≠ "" ∧ typeName = "Spawn" then
        let spawn : SpawnDef := { name := object.name.getD "", posPx := (x, y) }
        { st with mapData := { st.mapData with spawns := st.mapData.spawns ++ [spawn] } }
      else
        let mapObject : MapObject :=
          { id := object.id.getD 0
            name := object.name.getD ""
            type := typeName
            positionPx := (x, y)
            sizePx := (w, h)
            properties := object.properties }
        { st with mapData := { st.mapData with objects := st.mapData.objects ++ [mapObject] } })
    st

mutual

/-- The `ParseNode` lambda in `LoadTmxMap`: dispatch on the node's tag,
adding the node's own `offsetx`/`offsety` to the inherited offset before
descending into object groups and nested groups. -/
def ParseNode (expectedCount : Int) : TmxNode → ℚ × ℚ → LoadState → LoadState
  | TmxNode.layer name ldata, _, st => ParseLayer expectedCount st name ldata
  | TmxNode.objectgroup ox oy objs, parentOffsetPx, st =>
    ParseObjectGroup st (parentOffsetPx.1 + ox.getD 0, parentOffsetPx.2 + oy.getD 0) objs
  | TmxNode.group ox oy children, parentOffsetPx, st =>
    ParseNodes expectedCount children
      (parentOffsetPx.1 + ox.getD 0, parentOffsetPx.2 + oy.getD 0) st
  | TmxNode.other, _, st => st

/-- Left-to-right walk over sibling nodes, threading the state. -/
def ParseNodes (expectedCount : Int) : List TmxNode → ℚ × ℚ → LoadState → LoadState
  | [], _, st => st
  | n :: rest, off, st => ParseNodes expectedCount rest off (ParseNode expectedCount n off st)

end

/-- The tileset loop of `LoadTmxMap`: load each `<tileset>` element in
order; a failing element (`none`) aborts with `return false`, leaving the
already-loaded definitions in the output (`Except.error`). -/
def LoadTilesetsLoop : List (Option TilesetDef) → List TilesetDef →
    Except (List TilesetDef) (List TilesetDef)
  | [], acc => Except.ok acc
  | none :: _, acc => Except.error acc
  | some t :: rest, acc => LoadTilesetsLoop rest (acc ++ [t])

/-- The parsed document handed to `LoadTmxMap`: the `<map>` attributes, the
`<tileset>` elements (each already resolved to a definition, or `none` when
its loading fails, e.g. a missing external descriptor or image source), and
the remaining child nodes in document order. -/
structure MapDoc where
  width : Int := 0
  height : Int := 0
  tilewidth : Int := 0
  tileheight : Int := 0
  tilesets : List (Option TilesetDef) := []
  nodes : List TmxNode := []

/-- `LoadTmxMap`.  `outMapIn` is the caller's in-out argument, overwritten
with a default-constructed `LoadedMap` at entry; `doc = none` models a
structural parse failure (unreadable file or missing `<map>` root).
Returns the C++ `bool` together with the final contents of the out
parameter.  `std::sort` over tilesets is modelled as a merge sort by
`firstGid`. -/
def LoadTmxMap (outMapIn : LoadedMap) (doc : Option MapDoc) : Bool × LoadedMap :=
  let _ := outMapIn
  match doc with
  | none => (false, {})
  | some d =>
    let mapData0 : MapData :=
      { width := d.width, height := d.height, tileW := d.tilewidth, tileH := d.tileheight }
    let expectedCount : Int := d.width * d.height
    match LoadTilesetsLoop d.tilesets [] with
    | Except.error tilesetsSoFar =>
      (false, { mapData := { mapData0 with tilesets := tilesetsSoFar } })
    | Except.ok loadedTilesets =>
      if loadedTilesets.isEmpty then (false, { mapData := mapData0 })
      else
        let sorted := loadedTilesets.mergeSort (fun a b => decide (a.firstGid ≤ b.firstGid))
        let st0 : LoadState :=
          { mapData := { mapData0 with tilesets := sorted }
            collisionTiles := List.replicate expectedCount.toNat 0
            hasCollisionLayer := false
            logs := [] }
        let st1 := ParseNodes expectedCount d.nodes (0, 0) st0
        let md := st1.mapData
        let n := expectedCount.toNat
        let flags := (List.range n).map
          (fun i => CellFlags md.tilesets n md.groundGids md.wallsGids md.overheadGids i)
        let collision := AggregateCollision md.tilesets n st1.hasCollisionLayer
          st1.collisionTiles md.groundGids md.wallsGids md.overheadGids
        (true, { mapData := { md with tileFlags := flags, collision := collision } })

/-- Scenario tileset A of the spec: `firstId=1, tileCount=5`, uniform
5-column 64x32 atlas. -/
def tilesetA : TilesetRuntime :=
  { tdef := { firstGid := 1, tileCount := 5, columns := 5, tileW := 64, tileH := 32 }
    tileset := { atlasW := 320, atlasH := 32, tileW := 64, tileH := 32 } }

/-- Scenario tileset B of the spec: `firstId=6, tileCount=3`, uniform
3-column 64x32 atlas. -/
def tilesetB : TilesetRuntime :=
  { tdef := { firstGid := 6, tileCount := 3, columns := 3, tileW := 64, tileH := 32 }
    tileset := { atlasW := 192, atlasH := 32, tileW := 64, tileH := 32 } }

/-- A two-frame animation (100 ms + 200 ms, total 300 ms) for witnesses. -/
def waterAnimation : TileAnimation :=
  { frames := [{ tileId := 0, durationMs := 100 }, { tileId := 1, durationMs := 200 }]
    totalDurationMs := 300 }

/-- A runtime tileset whose local tile 0 carries `waterAnimation`. -/
def tilesetAnimated : TilesetRuntime :=
  { tdef := { firstGid := 1, tileCount := 4, columns := 2, tileW := 32, tileH := 32
              animations := [(0, waterAnimation)] }
    tileset := { atlasW := 64, atlasH := 64, tileW := 32, tileH := 32
                 animations := [(0, waterAnimation)] } }

/-- A tileset definition whose local tile 2 is flagged `blocking`. -/
def blockingTilesetDef : TilesetDef :=
  { firstGid := 1, tileCount := 4, columns := 2, tileW := 64, tileH := 32
    tileFlags := [(2, { blocking := true })] }

/-- A tile-anchored object: gid 1 declared at anchor (0,0) with a 32x32
size. -/
def propObject : TmxObject :=
  { x := some 0, y := some 0, width := some 32, height := some 32, gid := some 1 }

/-- A door object declared at local position (0,0). -/
def doorObject : TmxObject := { x := some 0, y := some 0, type := some "Door" }

/-- Wrap a node in nested `<group>` containers carrying the given
offsets, outermost first. -/
def nestGroups : List (ℚ × ℚ) → TmxNode → TmxNode
  | [], inner => inner
  | off :: rest, inner => TmxNode.group (some off.1) (some off.2) (nestGroups rest inner :: [])

/-- A document with valid map attributes but no `<tileset>` element. -/
def noTilesetDoc : MapDoc :=
  { width := 5, height := 4, tilewidth := 64, tileheight := 32, tilesets := [], nodes := [] }

/-- A document whose ground layer decodes to 3 cells on a 2x2 map. -/
def mismatchDoc : MapDoc :=
  { width := 2, height := 2, tilewidth := 64, tileheight := 32
    tilesets := [some blockingTilesetDef]
    nodes := [TmxNode.layer (some "ground") (some { encoding := some "csv", cells := [1, 2, 3] })] }

/-- Two render commands with equal depth keys and one with a smaller key,
for the stable-sort witness. -/
def cmdA : RenderCmd := { texture := 1, depthKey := 7 }

/-- Second command of the equal-key pair. -/
def cmdB : RenderCmd := { texture := 2, depthKey := 7 }

/-- A command with a smaller depth key, pushed after the pair. -/
def cmdC : RenderCmd := { texture := 3, depthKey := 3 }

/-- The cell gid refers to a tileset tile whose `blocking` property flag is
true: the gid is nonzero, `FindTilesetForGid` resolves it, and the owning
definition's flag table has `blocking` for the local id. -/
def GidBlocking (tilesets : List TilesetDef) (gid : Nat) : Prop :=
  gid ≠ 0 ∧ ∃ d f, FindTilesetForGid tilesets gid = some d ∧
    d.tileFlags.lookup (toInt32 gid - d.firstGid) = some f ∧ f.blocking = true

/-- A role layer blocks cell `i`: it has the expected cell count and its
occupying tile is `blocking`. -/
def RoleLayerBlocks (tilesets : List TilesetDef) (expectedCount : Nat)
    (layer : List Nat) (i : Nat) : Prop :=
  layer.length = expectedCount ∧ GidBlocking tilesets (layer.getD i 0)

/-- `toInt32` is the identity on values below `2^31`. -/
theorem toInt32_eq_of_lt {g : Nat} (h : g < 2 ^ 31) : toInt32 g = (g : Int) := by
  have h32 : g % 2 ^ 32 = g := Nat.mod_eq_of_lt (by omega)
  simp only [toInt32, h32, if_pos h]

/-- C9: for every tileset list and every elapsed time, `Resolve(0, t)`
returns no result; global id 0 is rejected before any range lookup (the
result does not depend on the tileset list at all). -/
theorem resolve_rejects_gid_zero (tilesets : List TilesetRuntime) (t : Int) :
    Resolve tilesets 0 t = none := rfl

/-- C10: each declared frame's missing / zero / negative `duration` is
coerced to 100 ms (and every coerced duration is positive); a stored
animation's `totalDurationMs` is the sum of the coerced frame durations,
is strictly positive, and comes with a non-empty frame list; indeed the
animation is stored exactly when at least one frame was declared. -/
theorem animation_duration_coercion (tileId : Int)
    (frameAttrs : List (Option Int × Option Int)) :
    (∀ p ∈ frameAttrs,
      (p.2.getD 0 ≤ 0 → (MakeAnimationFrame tileId p.1 p.2).durationMs = 100) ∧
      0 < (MakeAnimationFrame tileId p.1 p.2).durationMs) ∧
    (∀ a, BuildTileAnimation tileId frameAttrs = some a →
      a.totalDurationMs = (a.frames.map (·.durationMs)).sum ∧
      0 < a.totalDurationMs ∧ a.frames ≠ []) ∧
    ((BuildTileAnimation tileId frameAttrs).isSome ↔ frameAttrs ≠ []) := by
  have hpos : ∀ p : Option Int × Option Int,
      0 < (MakeAnimationFrame tileId p.1 p.2).durationMs := by
    intro p
    by_cases hd : p.2.getD 0 ≤ 0
    · simp [MakeAnimationFrame, hd]
    · simp only [MakeAnimationFrame, if_neg hd]
      omega
  refine ⟨?_, ?_, ?_⟩
  · intro p _
    refine ⟨fun hle => ?_, hpos p⟩
    simp only [MakeAnimationFrame, if_pos hle]
  · intro a ha
    simp only [BuildTileAnimation] at ha
    split_ifs at ha with hcond
    · cases ha
      refine ⟨rfl, hcond.2, ?_⟩
      have h1 := hcond.1
      simp only [List.isEmpty_eq_true] at h1
      exact h1
  · simp only [BuildTileAnimation]
    split_ifs with hcond
    · simp only [Option.isSome_some, true_iff]
      intro hnil
      rw [hnil] at hcond
      simp at hcond
    · simp only [Option.isSome_none, Bool.false_eq_true, false_iff, not_not]
      by_contra hne
      apply hcond
      constructor
      · simp only [List.isEmpty_eq_true, List.map_eq_nil_iff]
        exact hne
      · refine List.sum_pos _ ?_ ?_
        · intro x hx
          obtain ⟨f, hf, rfl⟩ := List.mem_map.mp hx
          obtain ⟨p, _, rfl⟩ := List.mem_map.mp hf
          exact hpos p
        · simp only [ne_eq, List.map_eq_nil_iff]
          exact hne

/-- Witness for C10 at a frame list with a missing and a negative
duration. -/
theorem animation_duration_coercion_witness :
    (∀ p ∈ [((none : Option Int), (none : Option Int)), (some 1, some (-5))],
      (p.2.getD 0 ≤ 0 → (MakeAnimationFrame 0 p.1 p.2).durationMs = 100) ∧
      0 < (MakeAnimationFrame 0 p.1 p.2).durationMs) ∧
    (∀ a, BuildTileAnimation 0 [((none : Option Int), (none : Option Int)), (some 1, some (-5))] = some a →
      a.totalDurationMs = (a.frames.map (·.durationMs)).sum ∧
      0 < a.totalDurationMs ∧ a.frames ≠ []) ∧
    ((BuildTileAnimation 0 [((none : Option Int), (none : Option Int)), (some 1, some (-5))]).isSome ↔
      [((none : Option Int), (none : Option Int)), (some 1, some (-5))] ≠ []) :=
  animation_duration_coercion 0 [(none, none), (some 1, some (-5))]

/-- The stable-sort comparator `fun a b => !(b.depthKey < a.depthKey)` is
transitive. -/
theorem depthLE_trans (x y z : RenderCmd) :
    (!decide (y.depthKey < x.depthKey)) = true →
    (!decide (z.depthKey < y.depthKey)) = true →
    (!decide (z.depthKey < x.depthKey)) = true := by
  simp only [Bool.not_eq_true', decide_eq_false_iff_not, not_lt]
  exact fun h1 h2 => le_trans h1 h2

/-- The stable-sort comparator is total. -/
theorem depthLE_total (x y : RenderCmd) :
    ((!decide (y.depthKey < x.depthKey)) || (!decide (x.depthKey < y.depthKey))) = true := by
  simp only [Bool.or_eq_true, Bool.not_eq_true', decide_eq_false_iff_not, not_lt]
  exact le_total x.depthKey y.depthKey

/-- C5: the depth sort permutes the queue, orders it ascending by depth
key, and is stable: two commands with equal depth keys pushed as
A-then-B (a pair sublist of the input) stay in that order in the output. -/
theorem depth_sort_stable_ascending (cmds : List RenderCmd) (a b : RenderCmd)
    (hsub : List.Sublist [a, b] cmds) (heq : a.depthKey = b.depthKey) :
    List.Perm (SortByDepthStable cmds) cmds ∧
    (SortByDepthStable cmds).Pairwise (fun x y => x.depthKey ≤ y.depthKey) ∧
    List.Sublist [a, b] (SortByDepthStable cmds) := by
  refine ⟨List.mergeSort_perm _ _, ?_, ?_⟩
  · have h := List.sorted_mergeSort depthLE_trans depthLE_total cmds
    refine h.imp ?_
    intro x y hxy
    simp only [Bool.not_eq_true', decide_eq_false_iff_not, not_lt] at hxy
    exact hxy
  · apply List.pair_sublist_mergeSort depthLE_trans depthLE_total ?_ hsub
    simp [heq]

/-- Witness for C5: the equal-key pair `cmdA, cmdB` (key 7) ahead of
`cmdC` (key 3). -/
theorem depth_sort_stable_ascending_witness :
    List.Perm (SortByDepthStable [cmdA, cmdB, cmdC]) [cmdA, cmdB, cmdC] ∧
    (SortByDepthStable [cmdA, cmdB, cmdC]).Pairwise (fun x y => x.depthKey ≤ y.depthKey) ∧
    List.Sublist [cmdA, cmdB] (SortByDepthStable [cmdA, cmdB, cmdC]) :=
  depth_sort_stable_ascending [cmdA, cmdB, cmdC] cmdA cmdB
    ((List.sublist_cons_self cmdC []).cons₂ cmdB |>.cons₂ cmdA) rfl

/-- Adding the cycle length does not change a nonnegative time's truncated
remainder. -/
theorem tmod_add_total {t D : Int} (ht : 0 ≤ t) (hD : 0 < D) :
    (t + D).tmod D = t.tmod D := by
  rw [Int.tmod_eq_emod ht hD.le, Int.tmod_eq_emod (by omega) hD.le,
    show t + D = t + D * 1 by ring, Int.add_mul_emod_self_left]

/-- `ResolveTileId` is periodic in the elapsed time with period
`totalDurationMs` of the tile's animation. -/
theorem resolveTileId_period (ts : TileSet) (l t : Int) (a : TileAnimation)
    (ha : ts.animations.lookup l = some a) (ht : 0 ≤ t) :
    ts.ResolveTileId l (t + a.totalDurationMs) = ts.ResolveTileId l t := by
  simp only [TileSet.ResolveTileId, ha]
  split_ifs with h
  · rfl
  · have hD : 0 < a.totalDurationMs := by
      push_neg at h
      omega
    rw [tmod_add_total ht hD]

/-- C3: animation substitution is periodic in elapsed time: when the
owning tileset's runtime `TileSet` has an animation for the computed local
id, resolving at `t` and at `t + totalDurationMs` produce the same result
(in particular the same resolved local id), for every elapsed time
`t ≥ 0`. -/
theorem resolve_animation_periodic (tilesets : List TilesetRuntime) (gid : Nat) (t : Int)
    (i : Nat) (hi : i < tilesets.length) (a : TileAnimation)
    (hfind : FindTilesetIndex tilesets gid = Int.ofNat i)
    (hanim : (tilesets.get ⟨i, hi⟩).tileset.animations.lookup
      (toInt32 gid - (tilesets.get ⟨i, hi⟩).tdef.firstGid) = some a)
    (ht : 0 ≤ t) :
    Resolve tilesets gid (t + a.totalDurationMs) = Resolve tilesets gid t := by
  by_cases hg : gid = 0
  · subst hg
    rfl
  · unfold Resolve
    rw [if_neg hg, if_neg hg]
    simp only [hfind]
    have hnot : ¬ (Int.ofNat i < 0) := not_lt.mpr (Int.ofNat_nonneg i)
    rw [if_neg hnot, if_neg hnot]
    have hget : tilesets[(Int.ofNat i).toNat]? = some (tilesets.get ⟨i, hi⟩) := by
      simp [List.getElem?_eq_getElem hi]
    simp only [hget]
    rw [resolveTileId_period _ _ _ _ hanim ht]

/-- Witness for C3: local tile 0 of `tilesetAnimated` (gid 1) resolves
identically at 50 ms and one full 300 ms cycle later. -/
theorem resolve_animation_periodic_witness :
    Resolve [tilesetAnimated] 1 (50 + waterAnimation.totalDurationMs) =
      Resolve [tilesetAnimated] 1 50 :=
  resolve_animation_periodic [tilesetAnimated] 1 50 0 (by decide) waterAnimation
    (by decide) (by decide) (by decide)

/-- If no remaining tileset's `firstGid` is `≤ g`, the selection loop
keeps its accumulator. -/
theorem findTilesetIndexAux_of_none (g : Int) :
    ∀ (l : List TilesetRuntime) (i0 : Nat) (acc : Int × Int),
      (∀ r ∈ l, ¬ r.tdef.firstGid ≤ g) → FindTilesetIndexAux l i0 g acc = acc
  | [], _, _, _ => rfl
  | r :: rest, i0, acc, h => by
    have hr : ¬ r.tdef.firstGid ≤ g := h r (List.mem_cons_self r rest)
    unfold FindTilesetIndexAux
    rw [if_neg (fun hc => hr hc.1)]
    exact findTilesetIndexAux_of_none g rest (i0 + 1) acc
      (fun x hx => h x (List.mem_cons_of_mem r hx))

/-- On a strictly `firstGid`-sorted list whose prefix up to position `i`
is `≤ g` and whose later elements exceed `g`, the selection loop lands on
position `i` (offset by the running index `i0`), provided the accumulator
is beaten by every element. -/
theorem findTilesetIndexAux_selects (g : Int) :
    ∀ (l : List TilesetRuntime) (i : Nat) (hi : i < l.length) (i0 : Nat) (b f : Int),
      l.Pairwise (fun x y => x.tdef.firstGid < y.tdef.firstGid) →
      (∀ j (hj : j < l.length), i < j → g < (l.get ⟨j, hj⟩).tdef.firstGid) →
      (∀ r ∈ l, f < r.tdef.firstGid) →
      (∀ j (hj : j < l.length), j ≤ i → (l.get ⟨j, hj⟩).tdef.firstGid ≤ g) →
      FindTilesetIndexAux l i0 g (b, f) =
        (Int.ofNat (i0 + i), (l.get ⟨i, hi⟩).tdef.firstGid)
  | [], i, hi, _, _, _, _, _, _, _ => absurd hi (Nat.not_lt_zero i)
  | r :: rest, i, hi, i0, b, f, hp, hpost, hf, hpre => by
    have hr_le : r.tdef.firstGid ≤ g := hpre 0 (Nat.succ_pos _) (Nat.zero_le i)
    have hrf : f < r.tdef.firstGid := hf r (List.mem_cons_self r rest)
    unfold FindTilesetIndexAux
    rw [if_pos ⟨hr_le, hrf⟩]
    cases i with
    | zero =>
      rw [findTilesetIndexAux_of_none g rest (i0 + 1) _ ?_]
      · simp
      · intro x hx
        obtain ⟨⟨k, hk⟩, rfl⟩ := List.mem_iff_get.mp hx
        have hgt := hpost (k + 1) (Nat.succ_lt_succ hk) (Nat.succ_pos k)
        simp only [List.get_cons_succ] at hgt
        exact not_le.mpr hgt
    | succ n =>
      have hi' : n < rest.length := Nat.lt_of_succ_lt_succ hi
      have hrec := findTilesetIndexAux_selects g rest n hi' (i0 + 1) (Int.ofNat i0)
        r.tdef.firstGid
        (List.pairwise_cons.mp hp).2
        (fun j hj hnj => by
          have hgt := hpost (j + 1) (Nat.succ_lt_succ hj) (Nat.succ_lt_succ hnj)
          simpa using hgt)
        (fun x hx => (List.pairwise_cons.mp hp).1 x hx)
        (fun j hj hji => by
          have hle := hpre (j + 1) (Nat.succ_lt_succ hj) (Nat.succ_le_succ hji)
          simpa using hle)
      rw [hrec]
      refine Prod.ext ?_ ?_
      · simp only
        congr 1
        omega
      · simp [List.get_cons_succ]

/-- With a sorted, non-overlapping tileset list whose position `i` contains
`gid`, `FindTilesetIndex` returns exactly `i`. -/
theorem findTilesetIndex_unique_owner
    (tilesets : List TilesetRuntime) (gid : Nat) (i : Nat) (hi : i < tilesets.length)
    (hsorted : tilesets.Pairwise (fun x y => x.tdef.firstGid < y.tdef.firstGid))
    (hsep : tilesets.Pairwise
      (fun x y => x.tdef.firstGid + x.tdef.tileCount ≤ y.tdef.firstGid))
    (hone : ∀ r ∈ tilesets, 1 ≤ r.tdef.firstGid)
    (hg31 : gid < 2 ^ 31)
    (hlo : (tilesets.get ⟨i, hi⟩).tdef.firstGid ≤ (gid : Int))
    (hhi2 : (gid : Int) <
      (tilesets.get ⟨i, hi⟩).tdef.firstGid + (tilesets.get ⟨i, hi⟩).tdef.tileCount) :
    FindTilesetIndex tilesets gid = Int.ofNat i := by
  have hpost : ∀ j (hj : j < tilesets.length), i < j →
      (gid : Int) < (tilesets.get ⟨j, hj⟩).tdef.firstGid := by
    intro j hj hij
    have hsep' := List.pairwise_iff_get.mp hsep ⟨i, hi⟩ ⟨j, hj⟩ hij
    omega
  have hf : ∀ r ∈ tilesets, (-1 : Int) < r.tdef.firstGid := by
    intro r hr
    have h1 := hone r hr
    omega
  have hpre : ∀ j (hj : j < tilesets.length), j ≤ i →
      (tilesets.get ⟨j, hj⟩).tdef.firstGid ≤ (gid : Int) := by
    intro j hj hji
    rcases Nat.lt_or_ge j i with hlt | hge
    · have hs := List.pairwise_iff_get.mp hsorted ⟨j, hj⟩ ⟨i, hi⟩ hlt
      omega
    · have hji' : j = i := Nat.le_antisymm hji hge
      subst hji'
      exact hlo
  unfold FindTilesetIndex
  rw [toInt32_eq_of_lt hg31,
    findTilesetIndexAux_selects (gid : Int) tilesets i hi 0 (-1) (-1) hsorted hpost hf hpre]
  simp

/-- C1: for a global id `g` contained (per
`firstId ≤ g < firstId + tileCount`) in exactly one tileset of a sorted,
non-overlapping list, `Resolve(g, t)` selects that tileset — the one with
the greatest `firstId` not exceeding `g` — and computes local id
`g - firstId`, for every elapsed time `t` (stated for a uniform-grid
owner without an animation on that local id, so the returned local id is
the computed one); and, concretely, with tileset A `firstId=1,tileCount=5`
and B `firstId=6,tileCount=3`, `Resolve(6,t)` selects B with local id 0,
`Resolve(5,t)` selects A with local id 4, and `Resolve(9,t)` returns no
result. -/
theorem resolve_selects_unique_owner
    (tilesets : List TilesetRuntime) (gid : Nat) (t : Int) (i : Nat)
    (hi : i < tilesets.length)
    (hsorted : tilesets.Pairwise (fun x y => x.tdef.firstGid < y.tdef.firstGid))
    (hsep : tilesets.Pairwise
      (fun x y => x.tdef.firstGid + x.tdef.tileCount ≤ y.tdef.firstGid))
    (hone : ∀ r ∈ tilesets, 1 ≤ r.tdef.firstGid)
    (hg31 : gid < 2 ^ 31)
    (hlo : (tilesets.get ⟨i, hi⟩).tdef.firstGid ≤ (gid : Int))
    (hhi2 : (gid : Int) <
      (tilesets.get ⟨i, hi⟩).tdef.firstGid + (tilesets.get ⟨i, hi⟩).tdef.tileCount)
    (himg : (tilesets.get ⟨i, hi⟩).tdef.isImageCollection = false)
    (hanim : (tilesets.get ⟨i, hi⟩).tileset.animations.lookup
      ((gid : Int) - (tilesets.get ⟨i, hi⟩).tdef.firstGid) = none) :
    (FindTilesetIndex tilesets gid = Int.ofNat i ∧
      ∃ r, Resolve tilesets gid t = some r ∧ r.tilesetIndex = Int.ofNat i ∧
        r.localId = (gid : Int) - (tilesets.get ⟨i, hi⟩).tdef.firstGid) ∧
    (∀ s : Int,
      (Resolve [tilesetA, tilesetB] 6 s).map (fun r => (r.tilesetIndex, r.localId)) =
        some (1, 0) ∧
      (Resolve [tilesetA, tilesetB] 5 s).map (fun r => (r.tilesetIndex, r.localId)) =
        some (0, 4) ∧
      Resolve [tilesetA, tilesetB] 9 s = none) := by
  have hfind := findTilesetIndex_unique_owner tilesets gid i hi hsorted hsep hone hg31 hlo hhi2
  have hfirst1 : 1 ≤ (tilesets.get ⟨i, hi⟩).tdef.firstGid :=
    hone _ (tilesets.get_mem _ _)
  refine ⟨⟨hfind, ?_⟩, fun s => ⟨rfl, rfl, rfl⟩⟩
  have hg0 : gid ≠ 0 := by
    intro h
    subst h
    simp only [Nat.cast_zero] at hlo
    omega
  unfold Resolve
  rw [if_neg hg0]
  simp only [hfind]
  have hnot : ¬ (Int.ofNat i < 0) := not_lt.mpr (Int.ofNat_nonneg i)
  rw [if_neg hnot]
  have hget : tilesets[(Int.ofNat i).toNat]? = some (tilesets.get ⟨i, hi⟩) := by
    simp [List.getElem?_eq_getElem hi]
  simp only [hget]
  rw [toInt32_eq_of_lt hg31]
  have hl0 : ¬ ((gid : Int) - (tilesets.get ⟨i, hi⟩).tdef.firstGid < 0) := by omega
  rw [if_neg hl0]
  have hl1 : ¬ ((tilesets.get ⟨i, hi⟩).tdef.tileCount > 0 ∧
      (gid : Int) - (tilesets.get ⟨i, hi⟩).tdef.firstGid ≥
        (tilesets.get ⟨i, hi⟩).tdef.tileCount) := by omega
  rw [if_neg hl1]
  have hrid : (tilesets.get ⟨i, hi⟩).tileset.ResolveTileId
      ((gid : Int) - (tilesets.get ⟨i, hi⟩).tdef.firstGid) t =
      (gid : Int) - (tilesets.get ⟨i, hi⟩).tdef.firstGid := by
    unfold TileSet.ResolveTileId
    rw [hanim]
  rw [hrid]
  simp only [himg, Bool.false_eq_true, if_false]
  exact ⟨_, rfl, rfl, rfl⟩

/-- Witness for C1 over the scenario pair at `gid = 6`, `i = 1`,
`t = 0`. -/
theorem resolve_selects_unique_owner_witness :
    (FindTilesetIndex [tilesetA, tilesetB] 6 = Int.ofNat 1 ∧
      ∃ r, Resolve [tilesetA, tilesetB] 6 0 = some r ∧ r.tilesetIndex = Int.ofNat 1 ∧
        r.localId = (6 : Int) -
          ([tilesetA, tilesetB].get ⟨1, by decide⟩).tdef.firstGid) ∧
    (∀ s : Int,
      (Resolve [tilesetA, tilesetB] 6 s).map (fun r => (r.tilesetIndex, r.localId)) =
        some (1, 0) ∧
      (Resolve [tilesetA, tilesetB] 5 s).map (fun r => (r.tilesetIndex, r.localId)) =
        some (0, 4) ∧
      Resolve [tilesetA, tilesetB] 9 s = none) :=
  resolve_selects_unique_owner [tilesetA, tilesetB] 6 0 1 (by decide) (by decide)
    (by decide) (by decide) (by decide) (by decide) (by decide) (by decide) (by decide)

/-- C4 (counterexample): the tile-anchored `propObject` is declared at
anchor (0,0) with height 32; the stored instance's world position is the
declared anchor (0,0) itself, not the bottom-to-top-edge adjusted
(0, 0 - 32) the claim asserts. -/
theorem tile_object_anchor_counterexample :
    (ParseObjectGroup {} (0, 0) [propObject]).mapData.objectInstances.map (·.worldPos) =
      [((0 : ℚ), (0 : ℚ))] ∧
    ((0 : ℚ), (0 : ℚ)) ≠ ((0 : ℚ), (0 : ℚ) - 32) := by
  constructor
  · norm_num [ParseObjectGroup, propObject, maskGidNat]
  · norm_num [Prod.ext_iff]

/-- C4 (amended): for every parsed object carrying a nonzero masked global
id, the stored instance's world pixel position equals the declared anchor
position plus the accumulated group offset, with no bottom-to-top edge
adjustment; the size is the object's own when positive, else the map tile
size. -/
theorem tile_object_anchor_unadjusted (st : LoadState) (off : ℚ × ℚ) (object : TmxObject)
    (hgid : maskGidNat (object.gid.getD 0) ≠ 0) :
    (ParseObjectGroup st off [object]).mapData.objectInstances =
      st.mapData.objectInstances ++
        [{ tileIndex := maskGidNat (object.gid.getD 0)
           worldPos := (object.x.getD 0 + off.1, object.y.getD 0 + off.2)
           size := if object.width.getD 0 > 0 ∧ object.height.getD 0 > 0
             then (object.width.getD 0, object.height.getD 0)
             else ((st.mapData.tileW : ℚ), (st.mapData.tileH : ℚ)) }] := by
  unfold ParseObjectGroup
  simp only [List.foldl_cons, List.foldl_nil, if_pos hgid]

/-- Witness for the amended C4 at `propObject` under offset (3,4). -/
theorem tile_object_anchor_unadjusted_witness :
    (ParseObjectGroup {} (3, 4) [propObject]).mapData.objectInstances =
      ({} : LoadState).mapData.objectInstances ++
        [{ tileIndex := maskGidNat (propObject.gid.getD 0)
           worldPos := (propObject.x.getD 0 + 3, propObject.y.getD 0 + 4)
           size := if propObject.width.getD 0 > 0 ∧ propObject.height.getD 0 > 0
             then (propObject.width.getD 0, propObject.height.getD 0)
             else ((({} : LoadState).mapData.tileW : ℚ),
                   (({} : LoadState).mapData.tileH : ℚ)) }] :=
  tile_object_anchor_unadjusted {} (3, 4) propObject (by decide)

/-- C8: group pixel offsets compose additively through nesting depth —
walking any chain of nested groups around an object group applies the sum
of the chain's offsets (plus the object group's own offset) to every
contained object — and, concretely, a door at local position (0,0) inside
a group with offset (5,5) nested inside a group with offset (10,20) is
stored with final pixel position (15,25). -/
theorem group_offsets_compose (ec : Int) :
    (∀ (offs : List (ℚ × ℚ)) (ogx ogy : Option ℚ) (objs : List TmxObject)
      (po : ℚ × ℚ) (st : LoadState),
      ParseNode ec (nestGroups offs (TmxNode.objectgroup ogx ogy objs)) po st =
        ParseObjectGroup st
          (po.1 + (offs.map Prod.fst).sum + ogx.getD 0,
           po.2 + (offs.map Prod.snd).sum + ogy.getD 0) objs) ∧
    (ParseNode ec (nestGroups [((10 : ℚ), (20 : ℚ)), ((5 : ℚ), (5 : ℚ))]
        (TmxNode.objectgroup none none [doorObject])) (0, 0) {}).mapData.doors =
      [{ posPx := (15, 25), sizePx := (0, 0), targetMap := "", targetSpawn := "" }] := by
  constructor
  · intro offs
    induction offs with
    | nil =>
      intro ogx ogy objs po st
      simp [nestGroups, ParseNode]
    | cons o rest ih =>
      intro ogx ogy objs po st
      simp only [nestGroups, ParseNode, ParseNodes, Option.getD_some]
      rw [ih]
      congr 1
      refine Prod.ext ?_ ?_
      · simp only [List.map_cons, List.sum_cons]
        ring
      · simp only [List.map_cons, List.sum_cons]
        ring
  · norm_num [ParseNode, ParseNodes, nestGroups, ParseObjectGroup, doorObject, maskGidNat,
      GetStringProp]
    decide

/-- One accumulation step ORs in exactly the `blocking` contribution of a
resolvable, flagged, nonzero gid. -/
theorem accumulate_blocking_iff (tilesets : List TilesetDef) (fl : TilePropertyFlags)
    (g : Nat) :
    (AccumulateTileFlags tilesets fl g).blocking = true ↔
      fl.blocking = true ∨ GidBlocking tilesets g := by
  unfold AccumulateTileFlags GidBlocking
  by_cases hg : g = 0
  · simp [hg]
  · rw [if_neg hg]
    cases hfind : FindTilesetForGid tilesets g with
    | none => simp [hfind, hg]
    | some d =>
      cases hlook : d.tileFlags.lookup (toInt32 g - d.firstGid) with
      | none => simp [hfind, hlook, hg]
      | some f => simp [hfind, hlook, hg, Bool.or_eq_true]

/-- The accumulated per-cell `blocking` flag over the three role layers is
the disjunction of the layers' blocking contributions. -/
theorem cellFlags_blocking_iff (tilesets : List TilesetDef) (n : Nat)
    (ground walls overhead : List Nat) (i : Nat) :
    (CellFlags tilesets n ground walls overhead i).blocking = true ↔
      (RoleLayerBlocks tilesets n ground i ∨ RoleLayerBlocks tilesets n walls i ∨
       RoleLayerBlocks tilesets n overhead i) := by
  by_cases h1 : ground.length = n <;> by_cases h2 : walls.length = n <;>
    by_cases h3 : overhead.length = n <;>
    simp [CellFlags, h1, h2, h3, accumulate_blocking_iff, RoleLayerBlocks, or_assoc]

/-- One cell of the aggregated collision grid: blocked when the cell's
accumulated flag is set, else the explicit collision byte (or 0 without a
collision layer). -/
theorem aggregate_getD (tilesets : List TilesetDef) (n : Nat) (hasColl : Bool)
    (collTiles ground walls overhead : List Nat) (i : Nat) (hi : i < n) :
    (AggregateCollision tilesets n hasColl collTiles ground walls overhead).getD i 0 =
      (if (CellFlags tilesets n ground walls overhead i).blocking then 1
       else if hasColl then collTiles.getD i 0 else 0) := by
  unfold AggregateCollision
  rw [List.getD_eq_getElem?_getD, List.getElem?_map, List.getElem?_range hi]
  simp

/-- C2: after aggregation, cell `i` of the final collision grid is 1 iff
the explicit collision layer (when present) marks the cell's masked gid
nonzero, or the tile occupying the cell in any of the three role layers
(of the expected size) belongs to a tileset tile with `blocking = true`;
moreover an empty cell (gid 0) contributes nothing, and with no collision
layer the base grid is all-clear. -/
theorem collision_aggregation_iff (tilesets : List TilesetDef) (n : Nat)
    (rawCollision : Option (List Int)) (ground walls overhead : List Nat) (i : Nat)
    (hi : i < n) (hlen : ∀ raw, rawCollision = some raw → raw.length = n) :
    ((AggregateCollision tilesets n rawCollision.isSome
        (CollisionBytes (rawCollision.getD [])) ground walls overhead).getD i 0 = 1 ↔
      ((∃ raw, rawCollision = some raw ∧ maskGid (raw.getD i 0) ≠ 0) ∨
       RoleLayerBlocks tilesets n ground i ∨ RoleLayerBlocks tilesets n walls i ∨
       RoleLayerBlocks tilesets n overhead i)) ∧
    (∀ fl : TilePropertyFlags, AccumulateTileFlags tilesets fl 0 = fl) := by
  refine ⟨?_, fun fl => rfl⟩
  rw [aggregate_getD tilesets n _ _ ground walls overhead i hi]
  by_cases hb : (CellFlags tilesets n ground walls overhead i).blocking = true
  · rw [if_pos hb]
    have hroles := (cellFlags_blocking_iff tilesets n ground walls overhead i).mp hb
    exact ⟨fun _ => Or.inr hroles, fun _ => rfl⟩
  · rw [if_neg hb]
    have hnr : ¬ (RoleLayerBlocks tilesets n ground i ∨ RoleLayerBlocks tilesets n walls i ∨
        RoleLayerBlocks tilesets n overhead i) :=
      fun h => hb ((cellFlags_blocking_iff tilesets n ground walls overhead i).mpr h)
    cases rawCollision with
    | none =>
      simp only [Option.isSome_none, Bool.false_eq_true, if_false]
      constructor
      · intro h
        exact absurd h (by norm_num)
      · intro h
        rcases h with ⟨raw, hraw, _⟩ | hr
        · cases hraw
        · exact absurd hr hnr
    | some raw =>
      have hlen' := hlen raw rfl
      have hbase : (CollisionBytes raw).getD i 0 =
          if maskGid (raw.getD i 0) = 0 then 0 else 1 := by
        have hir : i < raw.length := by omega
        unfold CollisionBytes
        rw [List.getD_eq_getElem?_getD, List.getElem?_map, List.getElem?_eq_getElem hir]
        rw [List.getD_eq_getElem?_getD, List.getElem?_eq_getElem hir]
        rfl
      simp only [Option.isSome_some, if_true, Option.getD_some]
      rw [hbase]
      by_cases hz : maskGid (raw.getD i 0) = 0
      · rw [if_pos hz]
        constructor
        · intro h
          exact absurd h (by norm_num)
        · intro h
          rcases h with ⟨raw', hraw', hnz⟩ | hr
          · cases hraw'
            exact absurd hz hnz
          · exact absurd hr hnr
      · rw [if_neg hz]
        exact ⟨fun _ => Or.inl ⟨raw, rfl, hz⟩, fun _ => rfl⟩

/-- Witness for C2: no collision layer, ground layer `[3,0,0,0]` on a
4-cell grid where gid 3 is the blocking local tile 2 of
`blockingTilesetDef`, inspected at cell 0. -/
theorem collision_aggregation_iff_witness :
    ((AggregateCollision [blockingTilesetDef] 4 (none : Option (List Int)).isSome
        (CollisionBytes ((none : Option (List Int)).getD [])) [3, 0, 0, 0] [] []).getD 0 0 = 1 ↔
      ((∃ raw, (none : Option (List Int)) = some raw ∧ maskGid (raw.getD 0 0) ≠ 0) ∨
       RoleLayerBlocks [blockingTilesetDef] 4 [3, 0, 0, 0] 0 ∨
       RoleLayerBlocks [blockingTilesetDef] 4 [] 0 ∨
       RoleLayerBlocks [blockingTilesetDef] 4 [] 0)) ∧
    (∀ fl : TilePropertyFlags, AccumulateTileFlags [blockingTilesetDef] fl 0 = fl) :=
  collision_aggregation_iff [blockingTilesetDef] 4 none [3, 0, 0, 0] [] [] 0 (by decide)
    (fun _ h => nomatch h)

/-- When every tileset element loads, the tileset loop succeeds with all
definitions appended in order. -/
theorem loadTilesetsLoop_all_some :
    ∀ (l : List (Option TilesetDef)) (acc : List TilesetDef),
      (∀ x ∈ l, x.isSome = true) →
      LoadTilesetsLoop l acc = Except.ok (acc ++ l.reduceOption)
  | [], acc, _ => by simp [LoadTilesetsLoop]
  | none :: rest, acc, h => by
    have hx := h none (List.mem_cons_self _ _)
    simp at hx
  | some t :: rest, acc, h => by
    unfold LoadTilesetsLoop
    rw [loadTilesetsLoop_all_some rest (acc ++ [t])
      (fun x hx => h x (List.mem_cons_of_mem _ hx))]
    simp

/-- C6: a layer whose decoded cell count differs from `width*height` is
recovered locally — `ParseLayer` only logs the mismatch and leaves the
state (hence that layer's role slot) unchanged — and the load still
succeeds whenever the document has at least one loadable tileset; whereas
a document with no tileset element at all makes the whole load return
failure. -/
theorem layer_mismatch_recovered (prev : LoadedMap) (d : MapDoc)
    (hsome : ∀ x ∈ d.tilesets, x.isSome = true)
    (hne : d.tilesets ≠ []) :
    (LoadTmxMap prev (some d)).1 = true ∧
    (∀ (ec : Int) (st : LoadState) (nm : Option String) (ld : LayerData),
      ld.encoding = some "csv" → (ld.cells.length : Int) ≠ ec →
      ParseLayer ec st nm (some ld) =
        { st with logs := st.logs ++ ["Layer size mismatch"] }) ∧
    (∀ (prev' : LoadedMap) (d' : MapDoc), d'.tilesets = [] →
      (LoadTmxMap prev' (some d')).1 = false) := by
  refine ⟨?_, ?_, ?_⟩
  · have hro : d.tilesets.reduceOption ≠ [] := by
      cases hl : d.tilesets with
      | nil => exact absurd hl hne
      | cons x xs =>
        have hx := hsome x (by rw [hl]; exact List.mem_cons_self _ _)
        cases x with
        | none => simp at hx
        | some t => simp [hl]
    have hie : d.tilesets.reduceOption.isEmpty = false := by
      rcases hcase : d.tilesets.reduceOption with _ | ⟨a, l⟩
      · exact absurd hcase hro
      · rfl
    simp only [LoadTmxMap]
    rw [loadTilesetsLoop_all_some d.tilesets [] hsome]
    simp [hie]
  · intro ec st nm ld henc hmis
    simp only [ParseLayer]
    rw [if_neg (by simp [henc]), if_pos hmis]
  · intro prev' d' hempty
    simp only [LoadTmxMap, hempty]
    simp [LoadTilesetsLoop]

/-- Witness for C6 at `mismatchDoc` (one tileset, one 3-cell ground layer
on a 2x2 map). -/
theorem layer_mismatch_recovered_witness :
    (LoadTmxMap {} (some mismatchDoc)).1 = true ∧
    (∀ (ec : Int) (st : LoadState) (nm : Option String) (ld : LayerData),
      ld.encoding = some "csv" → (ld.cells.length : Int) ≠ ec →
      ParseLayer ec st nm (some ld) =
        { st with logs := st.logs ++ ["Layer size mismatch"] }) ∧
    (∀ (prev' : LoadedMap) (d' : MapDoc), d'.tilesets = [] →
      (LoadTmxMap prev' (some d')).1 = false) :=
  layer_mismatch_recovered {} mismatchDoc (by decide) (by decide)

/-- C7 (counterexample): on `noTilesetDoc` (valid `<map>` attributes, no
tileset) the load fails, yet the output is not the default-constructed
model: it retains the parsed map dimensions (width 5), i.e. partial state
is retained on failure. -/
theorem load_failure_retains_state_counterexample :
    (LoadTmxMap {} (some noTilesetDoc)).1 = false ∧
    (LoadTmxMap {} (some noTilesetDoc)).2.mapData.width = 5 ∧
    (LoadTmxMap {} (some noTilesetDoc)).2 ≠ ({} : LoadedMap) := by
  refine ⟨by decide, by decide, by decide⟩

/-- C7 (amended): the output is reset at entry, so a failed load never
leaks the caller's previous map into the result — the result is
independent of the previous output contents — and a structural parse
failure (no readable `<map>`) leaves the output default-constructed; but
failures after attribute parsing may retain partially parsed state (see
the counterexample). -/
theorem load_failure_resets_output :
    (∀ (prev prev' : LoadedMap) (doc : Option MapDoc),
      LoadTmxMap prev doc = LoadTmxMap prev' doc) ∧
    (∀ prev : LoadedMap, LoadTmxMap prev none = (false, {})) :=
  ⟨fun _ _ _ => rfl, fun _ => rfl⟩
